import Mathlib

/-!
Verification of the MiBand heart-rate monitor core against its design
specification.  The Rust source (src/main.rs) is shallowly embedded below:
time (std::time::Instant) is modelled as whole seconds (Nat), u8 payload
bytes and heart rates as Nat, i16 rssi as Int, and Rust Option fields as
Lean Option.  An out-of-bounds Vec index, which panics in Rust, is made
explicit by the HandleResult.panicked outcome.
-/

/-- Manufacturer-specific data block of a BLE advertisement:
company_id : u16, data : Vec of u8. -/
structure ManufacturerData where
  company_id : Nat
  data : List Nat
deriving DecidableEq

/-- The fields of a bluest AdvertisingDevice that handle_device reads:
optional manufacturer data, optional device name, optional rssi. -/
structure AdvRecord where
  manufacturer_data : Option ManufacturerData
  name : Option String
  rssi : Option Int
deriving DecidableEq

/-- Outcome of handle_device: the record is filtered out, the process
panics (out-of-bounds index on data), or the callback is invoked with
(heart_rate, name, rssi). -/
inductive HandleResult where
  | rejected : HandleResult
  | panicked : HandleResult
  | accepted : Nat → String → Int → HandleResult
deriving DecidableEq

/-- Embedding of fn handle_device (src/main.rs lines 94-116).  The Rust code
returns early unless manufacturer data is present with company_id 0x0157 and
the device name (defaulted to "(未知)" when absent) equals "Mi Smart Band 4";
it then reads manufacturer_data.data[3] with no bounds check — a panic when
the payload is shorter than 4 bytes — and invokes the callback. -/
def handle_device (d : AdvRecord) : HandleResult :=
  match d.manufacturer_data with
  | none => HandleResult.rejected
  | some md =>
    if md.company_id ≠ 0x0157 then HandleResult.rejected
    else
      let name := d.name.getD "(未知)"
      if name ≠ "Mi Smart Band 4" then HandleResult.rejected
      else
        let rssi := d.rssi.getD 0
        match md.data[3]? with
        | some heart_rate => HandleResult.accepted heart_rate name rssi
        | none => HandleResult.panicked

/-- Embedding of struct HeartRateMonitor (src/main.rs lines 13-19):
current_rate : u8, device_name : String, rssi : i16,
last_update : Instant (seconds), history : VecDeque of u8. -/
structure HeartRateMonitor where
  current_rate : Nat
  device_name : String
  rssi : Int
  last_update : Nat
  history : List Nat
deriving DecidableEq

/-- Embedding of HeartRateMonitor::new (lines 33-41): rate 0, placeholder
device name, rssi = i16::MIN = -32768, last_update = now, empty history. -/
def HeartRateMonitor.new (now : Nat) : HeartRateMonitor :=
  { current_rate := 0
    device_name := "等待连接..."
    rssi := -32768
    last_update := now
    history := [] }

/-- Embedding of HeartRateMonitor::update (lines 43-54): overwrite the
scalar fields, stamp last_update with the current instant, push_back the
rate onto history and pop_front when the length exceeds 60. -/
def HeartRateMonitor.update (m : HeartRateMonitor) (rate : Nat) (name : String)
    (rssi : Int) (now : Nat) : HeartRateMonitor :=
  { current_rate := rate
    device_name := name
    rssi := rssi
    last_update := now
    history :=
      if (m.history ++ [rate]).length > 60 then (m.history ++ [rate]).tail
      else m.history ++ [rate] }

/-- Embedding of HeartRateMonitor::is_recent (lines 56-58):
last_update.elapsed().as_secs() < 10. -/
def HeartRateMonitor.is_recent (m : HeartRateMonitor) (now : Nat) : Bool :=
  now - m.last_update < 10

/-- Embedding of struct HeartRateUpdate (lines 21-30), the JSON snapshot
served to web consumers. -/
structure HeartRateUpdate where
  heart_rate : Nat
  device_name : String
  rssi : Int
  elapsed_secs : Nat
  status : String
  status_color : String
  history : List Nat
deriving DecidableEq

/-- Embedding of fn create_heart_rate_update (lines 119-142): a read-only
snapshot of the monitor, with freshness rendered as a status string and a
colour. -/
def create_heart_rate_update (m : HeartRateMonitor) (now : Nat) : HeartRateUpdate :=
  { heart_rate := m.current_rate
    device_name := m.device_name
    rssi := m.rssi
    elapsed_secs := now - m.last_update
    status := if m.is_recent now then "实时更新中" else "信号丢失"
    status_color := if m.is_recent now then "#27ae60" else "#e74c3c"
    history := m.history }

/-- The scan-loop body in main (lines 82-90): handle_device with a callback
that locks the monitor and calls update.  Returns none when handle_device
panics (the process dies before the callback runs). -/
def processRecord (m : HeartRateMonitor) (d : AdvRecord) (now : Nat) :
    Option HeartRateMonitor :=
  match handle_device d with
  | HandleResult.accepted hr name rssi => some (m.update hr name rssi now)
  | HandleResult.rejected => some m
  | HandleResult.panicked => none

/-- Arguments of one accepted HeartRateMonitor.update call. -/
structure UpdateArgs where
  rate : Nat
  name : String
  rssi : Int
  now : Nat

/-- A sequence of accepted updates applied in order. -/
def applyUpdates (m : HeartRateMonitor) (us : List UpdateArgs) : HeartRateMonitor :=
  List.foldl (fun acc u => acc.update u.rate u.name u.rssi u.now) m us

/-- An operation on the shared store: an accepted update, or a read-only
snapshot (create_heart_rate_update takes the monitor by shared reference
and mutates nothing). -/
inductive StoreOp where
  | upd : Nat → String → Int → Nat → StoreOp
  | snap : Nat → StoreOp

/-- Effect of one store operation on the monitor state. -/
def applyOp (m : HeartRateMonitor) : StoreOp → HeartRateMonitor
  | StoreOp.upd r n s t => m.update r n s t
  | StoreOp.snap _ => m

/-- Effect of a sequence of store operations. -/
def applyOps (m : HeartRateMonitor) (ops : List StoreOp) : HeartRateMonitor :=
  List.foldl applyOp m ops

/-- A typed reading as in the spec data model. -/
structure Reading where
  value : Nat
  deviceName : String
  signalStrength : Int
  observedAt : Nat
deriving DecidableEq

/-- Modelled from the spec: the LiveValueStore of the blocking
wait-for-change source variant, which is not among the provided source
files.  State is current reading, bounded history, last-update time and a
generation counter. -/
structure LiveValueStore where
  current : Option Reading
  history : List Nat
  lastUpdate : Nat
  generation : Nat
deriving DecidableEq

/-- Modelled from the spec: LiveValueStore created at process start with
empty and default values. -/
def LiveValueStore.new : LiveValueStore :=
  { current := none, history := [], lastUpdate := 0, generation := 0 }

/-- Modelled from the spec: update(reading) sets current, appends the value
to history (evicting the oldest entry past capacity 60), sets lastUpdate to
the reading's timestamp and increments generation. -/
def LiveValueStore.update (s : LiveValueStore) (r : Reading) : LiveValueStore :=
  { current := some r
    history :=
      if (s.history ++ [r.value]).length > 60 then (s.history ++ [r.value]).tail
      else s.history ++ [r.value]
    lastUpdate := r.observedAt
    generation := s.generation + 1 }

/-- Modelled from the spec: the immutable copy a reader receives. -/
structure StoreSnapshot where
  value : Nat
  deviceName : String
  signalStrength : Int
  elapsedSeconds : Nat
  history : List Nat
  generation : Nat
deriving DecidableEq

/-- Modelled from the spec: snapshot() returns an immutable copy of the
store state plus the elapsed time and the generation counter. -/
def LiveValueStore.snapshot (s : LiveValueStore) (now : Nat) : StoreSnapshot :=
  { value := (s.current.map Reading.value).getD 0
    deviceName := (s.current.map Reading.deviceName).getD "等待连接..."
    signalStrength := (s.current.map Reading.signalStrength).getD (-32768)
    elapsedSeconds := now - s.lastUpdate
    history := s.history
    generation := s.generation }

/-- Modelled from the spec: waitForChange(lastSeenGeneration) suspends the
caller until generation exceeds lastSeenGeneration and then returns the new
snapshot.  Suspension is modelled by returning none while the guard fails:
the call can only complete (some) in a state whose generation exceeds the
argument. -/
def waitForChange (g : Nat) (s : LiveValueStore) (now : Nat) : Option StoreSnapshot :=
  if g < s.generation then some (s.snapshot now) else none

/-- Filtering feeding the spec-modelled store: accepted decodes from
handle_device are pushed into LiveValueStore.update. -/
def processRecordStore (s : LiveValueStore) (d : AdvRecord) (now : Nat) :
    Option LiveValueStore :=
  match handle_device d with
  | HandleResult.accepted hr name rssi =>
      some (s.update { value := hr, deviceName := name, signalStrength := rssi,
                       observedAt := now })
  | HandleResult.rejected => some s
  | HandleResult.panicked => none

/-- A concrete advertisement record from the spec scenario: matching company
id, matching name, payload [0,0,0,72]. -/
def sampleRecord : AdvRecord :=
  { manufacturer_data := some { company_id := 0x0157, data := [0, 0, 0, 72] }
    name := some "Mi Smart Band 4"
    rssi := some (-50) }

/-- A matching record whose payload has only 3 bytes. -/
def shortRecord : AdvRecord :=
  { manufacturer_data := some { company_id := 0x0157, data := [0, 0, 0] }
    name := some "Mi Smart Band 4"
    rssi := some (-50) }

/-- A record with a wrong company id. -/
def wrongCompanyRecord : AdvRecord :=
  { manufacturer_data := some { company_id := 0x0158, data := [0, 0, 0, 72] }
    name := some "Mi Smart Band 4"
    rssi := some (-50) }

/-- A matching record carrying the sentinel byte 0xFF at offset 3. -/
def sentinelRecord : AdvRecord :=
  { manufacturer_data := some { company_id := 0x0157, data := [0, 0, 0, 255] }
    name := some "Mi Smart Band 4"
    rssi := some (-50) }

/-- 61 update calls with rates 1..61. -/
def sixtyOneUpdates : List UpdateArgs :=
  (List.range 61).map (fun i => { rate := i + 1, name := "Mi Smart Band 4",
                                  rssi := -50, now := i })

/-! Theorems -/

/-- C1: at a record with matching company id 0x0157 and name
"Mi Smart Band 4" but a payload of only 3 bytes, handle_device reads
data[3] out of bounds.  The embedded outcome is panicked — a fatal
condition, not the silent rejection the claim requires. -/
theorem handle_device_short_payload_panics :
    handle_device shortRecord = HandleResult.panicked := by
  decide

/-- C3: the generation counter of the spec-modelled LiveValueStore strictly
increases on every accepted update, and the counter is part of every
snapshot handed to readers. -/
theorem generation_strictly_increases (s : LiveValueStore) (r : Reading)
    (now : Nat) :
    s.generation < (s.update r).generation ∧
      (s.snapshot now).generation = s.generation :=
  ⟨Nat.lt_succ_self _, rfl⟩

/-- C5: a served snapshot carries the fresh status (and the fresh colour)
exactly when the elapsed seconds it itself reports are strictly below 10. -/
theorem snapshot_fresh_iff (m : HeartRateMonitor) (now : Nat) :
    ((create_heart_rate_update m now).status = "实时更新中" ↔
        (create_heart_rate_update m now).elapsed_secs < 10) ∧
      ((create_heart_rate_update m now).status_color = "#27ae60" ↔
        (create_heart_rate_update m now).elapsed_secs < 10) := by
  by_cases h : now - m.last_update < 10 <;>
    simp [create_heart_rate_update, HeartRateMonitor.is_recent, h]

/-- C8: whenever the spec-modelled waitForChange(g) completes, it does so
with a snapshot of the current store state whose generation strictly
exceeds g — never a stale or partially-applied one. -/
theorem waitForChange_returns_newer (g : Nat) (s : LiveValueStore) (now : Nat)
    (snap : StoreSnapshot) (h : waitForChange g s now = some snap) :
    g < snap.generation ∧ snap = s.snapshot now := by
  unfold waitForChange at h
  split at h
  · rename_i hg
    cases h
    exact ⟨hg, rfl⟩
  · cases h

/-- Witness for C8 at a concrete store of generation 1. -/
theorem waitForChange_returns_newer_witness :
    0 < ((LiveValueStore.new.update
        { value := 72, deviceName := "Mi Smart Band 4",
          signalStrength := -50, observedAt := 3 }).snapshot 5).generation ∧
      (LiveValueStore.new.update
        { value := 72, deviceName := "Mi Smart Band 4",
          signalStrength := -50, observedAt := 3 }).snapshot 5 =
      (LiveValueStore.new.update
        { value := 72, deviceName := "Mi Smart Band 4",
          signalStrength := -50, observedAt := 3 }).snapshot 5 :=
  waitForChange_returns_newer 0
    (LiveValueStore.new.update
      { value := 72, deviceName := "Mi Smart Band 4",
        signalStrength := -50, observedAt := 3 }) 5 _ rfl

/-- C9: before the first accepted update every snapshot reports value 0,
the placeholder device name, rssi i16::MIN = -32768 and an empty history;
it is classified fresh exactly when fewer than 10 seconds have elapsed
since construction; and its heart-rate value and status coincide with
those of a store that received an actual reading of 0 at construction
time, so value and freshness alone cannot distinguish the two. -/
theorem initial_snapshot_fields (t0 now : Nat) (r : Int) :
    (create_heart_rate_update (HeartRateMonitor.new t0) now).heart_rate = 0 ∧
      (create_heart_rate_update (HeartRateMonitor.new t0) now).device_name =
        "等待连接..." ∧
      (create_heart_rate_update (HeartRateMonitor.new t0) now).rssi = -32768 ∧
      (create_heart_rate_update (HeartRateMonitor.new t0) now).history = [] ∧
      ((create_heart_rate_update (HeartRateMonitor.new t0) now).status =
          "实时更新中" ↔ now - t0 < 10) ∧
      (create_heart_rate_update (HeartRateMonitor.new t0) now).heart_rate =
        (create_heart_rate_update
          ((HeartRateMonitor.new t0).update 0 "Mi Smart Band 4" r t0) now).heart_rate ∧
      (create_heart_rate_update (HeartRateMonitor.new t0) now).status =
        (create_heart_rate_update
          ((HeartRateMonitor.new t0).update 0 "Mi Smart Band 4" r t0) now).status := by
  refine ⟨rfl, rfl, rfl, rfl, ?_, rfl, rfl⟩
  by_cases h : now - t0 < 10 <;>
    simp [create_heart_rate_update, HeartRateMonitor.new,
      HeartRateMonitor.is_recent, h]

/-- C10: an accepted advertisement whose payload byte at offset 3 is 0xFF
is stored literally: handle_device accepts value 255, the monitor's current
rate becomes 255 and 255 is appended to the history (oldest entry evicted
at capacity); no skip-this-update policy is applied. -/
theorem sentinel_stored_literally (d : AdvRecord) (md : ManufacturerData)
    (m : HeartRateMonitor) (now : Nat)
    (hmd : d.manufacturer_data = some md) (hc : md.company_id = 0x0157)
    (hn : d.name.getD "(未知)" = "Mi Smart Band 4")
    (hb : md.data[3]? = some 255) :
    handle_device d =
        HandleResult.accepted 255 "Mi Smart Band 4" (d.rssi.getD 0) ∧
      processRecord m d now =
        some (m.update 255 "Mi Smart Band 4" (d.rssi.getD 0) now) ∧
      (m.update 255 "Mi Smart Band 4" (d.rssi.getD 0) now).current_rate = 255 ∧
      (m.update 255 "Mi Smart Band 4" (d.rssi.getD 0) now).history =
        (if (m.history ++ [255]).length > 60 then (m.history ++ [255]).tail
         else m.history ++ [255]) := by
  have hacc : handle_device d =
      HandleResult.accepted 255 "Mi Smart Band 4" (d.rssi.getD 0) := by
    unfold handle_device
    rw [hmd]
    simp [hc, hn, hb]
  exact ⟨hacc, by simp [processRecord, hacc], rfl, rfl⟩

/-- Witness for C10 at the concrete sentinel record. -/
theorem sentinel_stored_literally_witness :
    handle_device sentinelRecord =
      HandleResult.accepted 255 "Mi Smart Band 4" (sentinelRecord.rssi.getD 0) :=
  (sentinel_stored_literally sentinelRecord
    { company_id := 0x0157, data := [0, 0, 0, 255] }
    (HeartRateMonitor.new 0) 7 rfl rfl rfl (by decide)).1

/-- C6: a record carrying manufacturer data whose company id is not 0x0157,
or whose device name (defaulted when absent) is not "Mi Smart Band 4", is
rejected: update is not invoked, the monitor is left entirely unchanged
(every field), and the spec-modelled store — its generation counter
included — is left entirely unchanged. -/
theorem filtered_record_leaves_store_unchanged (d : AdvRecord)
    (md : ManufacturerData) (m : HeartRateMonitor) (s : LiveValueStore)
    (now : Nat) (hmd : d.manufacturer_data = some md)
    (h : md.company_id ≠ 0x0157 ∨ d.name.getD "(未知)" ≠ "Mi Smart Band 4") :
    handle_device d = HandleResult.rejected ∧
      processRecord m d now = some m ∧
      processRecordStore s d now = some s := by
  have hrej : handle_device d = HandleResult.rejected := by
    unfold handle_device
    rw [hmd]
    rcases h with h | h
    · simp [h]
    · by_cases hc : md.company_id = 0x0157
      · simp [hc, h]
      · simp [hc]
  exact ⟨hrej, by simp [processRecord, hrej],
    by simp [processRecordStore, hrej]⟩

/-- Witness for C6 at a concrete wrong-company record. -/
theorem filtered_record_leaves_store_unchanged_witness :
    handle_device wrongCompanyRecord = HandleResult.rejected :=
  (filtered_record_leaves_store_unchanged wrongCompanyRecord
    { company_id := 0x0158, data := [0, 0, 0, 72] }
    (HeartRateMonitor.new 0) LiveValueStore.new 0 rfl
    (Or.inl (by decide))).1

/-- One update keeps the history within capacity 60. -/
theorem update_history_length_le (m : HeartRateMonitor) (r : Nat) (n : String)
    (s : Int) (t : Nat) (hm : m.history.length ≤ 60) :
    (m.update r n s t).history.length ≤ 60 := by
  simp only [HeartRateMonitor.update]
  split
  · simp
    omega
  · rename_i hlen
    simp at hlen ⊢
    omega

/-- After a run of accepted updates the history is the suffix of the pushed
values (preceded by whatever was already buffered) that fits in the
60-entry window. -/
theorem applyUpdates_history (us : List UpdateArgs) :
    ∀ m : HeartRateMonitor, m.history.length ≤ 60 →
      (applyUpdates m us).history =
        (m.history ++ us.map UpdateArgs.rate).drop
          (m.history.length + us.length - 60) := by
  induction us with
  | nil =>
    intro m hm
    have h0 : m.history.length + 0 - 60 = 0 := by omega
    simp only [applyUpdates, List.foldl_nil, List.map_nil, List.append_nil,
      List.length_nil, h0, List.drop_zero]
  | cons u us ih =>
    intro m hm
    have step : applyUpdates m (u :: us) =
        applyUpdates (m.update u.rate u.name u.rssi u.now) us := rfl
    rw [step, ih _ (update_history_length_le m u.rate u.name u.rssi u.now hm)]
    by_cases hlen : (m.history ++ [u.rate]).length > 60
    · have h60 : m.history.length = 60 := by
        simp at hlen
        omega
      obtain ⟨a, t, ht⟩ : ∃ a t, m.history = a :: t := by
        cases hh : m.history with
        | nil => rw [hh] at h60; simp at h60
        | cons a t => exact ⟨a, t, rfl⟩
      have ht_len : t.length = 59 := by
        rw [ht] at h60
        simp at h60
        omega
      have hist_eq : (m.update u.rate u.name u.rssi u.now).history =
          t ++ [u.rate] := by
        simp only [HeartRateMonitor.update, ht, List.cons_append]
        rw [if_pos]
        · exact List.tail_cons
        · simp [ht_len]
      rw [hist_eq, ht]
      have e1 : (t ++ [u.rate]).length + us.length - 60 = us.length := by
        simp only [List.length_append, List.length_cons, List.length_nil, ht_len]
        omega
      have e2 : (a :: t).length + (u :: us).length - 60 = us.length + 1 := by
        simp only [List.length_cons, ht_len]
        omega
      rw [e1, e2]
      simp [List.append_assoc]
    · have hist_eq : (m.update u.rate u.name u.rssi u.now).history =
          m.history ++ [u.rate] := by
        simp only [HeartRateMonitor.update, if_neg hlen]
      rw [hist_eq]
      have e1 : (m.history ++ [u.rate]).length + us.length - 60 =
          m.history.length + (u :: us).length - 60 := by
        simp
        omega
      rw [e1]
      simp [List.append_assoc]

/-- C4: starting from the empty store, N accepted updates leave exactly the
values themselves when N ≤ 60, and exactly the last 60 values in arrival
order (length 60, oldest evicted) when N > 60; in particular 61 updates
with rates 1..61 leave [2,...,61]. -/
theorem history_matches_last_values (t0 : Nat) (us : List UpdateArgs) :
    (us.length ≤ 60 →
        (applyUpdates (HeartRateMonitor.new t0) us).history =
          us.map UpdateArgs.rate) ∧
      (60 < us.length →
        (applyUpdates (HeartRateMonitor.new t0) us).history.length = 60 ∧
          (applyUpdates (HeartRateMonitor.new t0) us).history =
            (us.map UpdateArgs.rate).drop (us.length - 60)) := by
  have hbase := applyUpdates_history us (HeartRateMonitor.new t0)
    (by simp [HeartRateMonitor.new])
  have hh : (HeartRateMonitor.new t0).history = ([] : List Nat) := rfl
  rw [hh] at hbase
  simp only [List.nil_append, List.length_nil, Nat.zero_add] at hbase
  constructor
  · intro hle
    have h0 : us.length - 60 = 0 := by omega
    rw [hbase, h0, List.drop_zero]
  · intro hgt
    refine ⟨?_, hbase⟩
    rw [hbase]
    simp only [List.length_drop, List.length_map]
    omega

/-- C7: in every state reachable from the initial store by any sequence of
update and snapshot operations, the history holds at most 60 entries. -/
theorem history_length_bounded (t0 : Nat) (ops : List StoreOp) :
    (applyOps (HeartRateMonitor.new t0) ops).history.length ≤ 60 := by
  have main : ∀ (l : List StoreOp) (m : HeartRateMonitor),
      m.history.length ≤ 60 → (applyOps m l).history.length ≤ 60 := by
    intro l
    induction l with
    | nil => intro m hm; exact hm
    | cons op rest ih =>
      intro m hm
      cases op with
      | upd r n s t => exact ih _ (update_history_length_le m r n s t hm)
      | snap _ => exact ih _ hm
  exact main ops _ (by simp [HeartRateMonitor.new])

/-- C2: handle_device accepts a record iff manufacturer data is present
with company id 0x0157, the device name is present and equals
"Mi Smart Band 4" exactly (an absent name defaults to "(未知)" and so never
matches), and the payload is longer than 3 bytes; every accepted decode
carries exactly the payload byte at offset 3. -/
theorem accept_iff_filter (d : AdvRecord) :
    ((∃ hr n s, handle_device d = HandleResult.accepted hr n s) ↔
        ∃ md, d.manufacturer_data = some md ∧ md.company_id = 0x0157 ∧
          d.name = some "Mi Smart Band 4" ∧ 3 < md.data.length) ∧
      ∀ hr n s, handle_device d = HandleResult.accepted hr n s →
        ∃ md, d.manufacturer_data = some md ∧ md.data[3]? = some hr := by
  cases hmd : d.manufacturer_data with
  | none =>
    have hrej : handle_device d = HandleResult.rejected := by
      unfold handle_device
      rw [hmd]
    refine ⟨⟨?_, ?_⟩, ?_⟩
    · rintro ⟨hr, n, s, hacc⟩
      rw [hrej] at hacc
      cases hacc
    · rintro ⟨md, hmd2, _⟩
      exact Option.noConfusion hmd2
    · intro hr n s hacc
      rw [hrej] at hacc
      cases hacc
  | some md =>
    by_cases hc : md.company_id = 0x0157
    · by_cases hn : d.name = some "Mi Smart Band 4"
      · have hgetD : d.name.getD "(未知)" = "Mi Smart Band 4" := by
          rw [hn]
          rfl
        cases hb : md.data[3]? with
        | some hr0 =>
          have hacc : handle_device d =
              HandleResult.accepted hr0 "Mi Smart Band 4" (d.rssi.getD 0) := by
            unfold handle_device
            rw [hmd]
            simp [hc, hgetD, hb]
          have hlen : 3 < md.data.length := by
            by_contra hle
            push_neg at hle
            rw [List.getElem?_eq_none hle] at hb
            cases hb
          refine ⟨⟨?_, ?_⟩, ?_⟩
          · intro _
            exact ⟨md, rfl, hc, hn, hlen⟩
          · intro _
            exact ⟨hr0, "Mi Smart Band 4", d.rssi.getD 0, hacc⟩
          · intro hr n s hacc2
            rw [hacc] at hacc2
            cases hacc2
            exact ⟨md, rfl, hb⟩
        | none =>
          have hpan : handle_device d = HandleResult.panicked := by
            unfold handle_device
            rw [hmd]
            simp [hc, hgetD, hb]
          have hlen : ¬ 3 < md.data.length := by
            intro hlt
            rw [List.getElem?_eq_getElem hlt] at hb
            cases hb
          refine ⟨⟨?_, ?_⟩, ?_⟩
          · rintro ⟨hr, n, s, hacc⟩
            rw [hpan] at hacc
            cases hacc
          · rintro ⟨md2, hmd2, _, _, hlen2⟩
            cases hmd2
            exact absurd hlen2 hlen
          · intro hr n s hacc
            rw [hpan] at hacc
            cases hacc
      · have hgetD : d.name.getD "(未知)" ≠ "Mi Smart Band 4" := by
          cases hname : d.name with
          | none => decide
          | some x =>
            simp only [Option.getD_some]
            intro hx
            exact hn (by rw [hname, hx])
        have hrej : handle_device d = HandleResult.rejected := by
          unfold handle_device
          rw [hmd]
          simp [hc, hgetD]
        refine ⟨⟨?_, ?_⟩, ?_⟩
        · rintro ⟨hr, n, s, hacc⟩
          rw [hrej] at hacc
          cases hacc
        · rintro ⟨md2, _, _, hn2, _⟩
          exact absurd hn2 hn
        · intro hr n s hacc
          rw [hrej] at hacc
          cases hacc
    · have hrej : handle_device d = HandleResult.rejected := by
        unfold handle_device
        rw [hmd]
        simp [hc]
      refine ⟨⟨?_, ?_⟩, ?_⟩
      · rintro ⟨hr, n, s, hacc⟩
        rw [hrej] at hacc
        cases hacc
      · rintro ⟨md2, hmd2, hc2, _, _⟩
        cases hmd2
        exact absurd hc2 hc
      · intro hr n s hacc
        rw [hrej] at hacc
        cases hacc

/-- The spec scenario record [0,0,0,72] is accepted and decodes to 72. -/
theorem sample_record_accepted :
    handle_device sampleRecord =
      HandleResult.accepted 72 "Mi Smart Band 4" (-50) := by
  decide

/-- Witness for C4: after the 61 concrete updates with rates 1..61 the
history is the last 60 pushed values. -/
theorem history_matches_last_values_witness :
    (applyUpdates (HeartRateMonitor.new 0) sixtyOneUpdates).history =
      (sixtyOneUpdates.map UpdateArgs.rate).drop (sixtyOneUpdates.length - 60) :=
  ((history_matches_last_values 0 sixtyOneUpdates).2 (by decide)).2
